import Mathlib

/-!
# http-server: a verification development of `main.go`

The program is one HTTP handler (`handler`) around one function (`getIPInfo`) that
performs two outbound `http.Get` calls, decodes two JSON bodies, and formats a greeting.

Modelling conventions.

* A Go `string` is a sequence of bytes; it is modelled by a Lean `String` in which every
  character stands for one byte.  All literals of the program are ASCII.
* A Go `float64` that was decoded from JSON is finite; it is modelled exactly, as a sign
  and a dyadic magnitude `mant * 2 ^ exp`.
* The outside world (process environment, the answers of the two remote services) is an
  explicit argument `World`; the outbound calls made by a run are returned as a trace.
* A Go run-time panic is an explicit outcome, distinct from a returned `error`.
-/

set_option autoImplicit false

namespace HttpServer

/-! ## Go run-time values -/

/-- A finite `float64`: the value is `(-1) ^ neg * mant * 2 ^ exp`. -/
structure Float64 where
  neg : Bool
  mant : Nat
  exp : Int
  deriving DecidableEq, Repr

/-- The zero value of `float64`. -/
def Float64.zero : Float64 := ⟨false, 0, 0⟩

/-- Magnitude of a `float64` as a rational number. -/
def Float64.abs (f : Float64) : ℚ := (f.mant : ℚ) * (2 : ℚ) ^ f.exp

/-- The value `interface{}` holds after `encoding/json` decoded into it:
`nil`, `bool`, `float64`, `string`, `[]interface{}` or `map[string]interface{}`.
An object keeps its members in textual order. -/
inductive JSON where
  | null : JSON
  | bool (b : Bool) : JSON
  | number (f : Float64) : JSON
  | string (s : String) : JSON
  | array (xs : List JSON) : JSON
  | object (kvs : List (String × JSON)) : JSON

/-- A `map[string]interface{}` filled by the decoder from the members of an object. -/
abbrev GoMap := List (String × JSON)

/-- Map indexing `m[key]`: a later member with the same name replaced an earlier one;
a missing key gives the `nil` interface. -/
def GoMap.index (m : GoMap) (key : String) : JSON :=
  match m.reverse.find? (fun kv => kv.1 == key) with
  | some kv => kv.2
  | none => JSON.null

/-- Dynamic type name of an interface value, as printed by a failed type assertion. -/
def JSON.typeName : JSON → String
  | .null => "nil"
  | .bool _ => "bool"
  | .number _ => "float64"
  | .string _ => "string"
  | .array _ => "[]interface \x7b\x7d"
  | .object _ => "map[string]interface \x7b\x7d"

/-- Comma-ok assertion `v, ok := x.(string)`. -/
def JSON.assertString : JSON → String × Bool
  | .string s => (s, true)
  | _ => ("", false)

/-- Comma-ok assertion `v, ok := x.(float64)`. -/
def JSON.assertFloat64 : JSON → Float64 × Bool
  | .number f => (f, true)
  | _ => (Float64.zero, false)

/-- Single-value assertion `x.(map[string]interface{})`: `Except.error` is the panic
message raised when the dynamic type is anything else. -/
def JSON.mustMap : JSON → Except String GoMap
  | .object kvs => .ok kvs
  | v => .error ("interface conversion: interface \x7b\x7d is " ++ v.typeName ++
      ", not map[string]interface \x7b\x7d")

/-- Name of a JSON value kind in an `UnmarshalTypeError`. -/
def JSON.kindName : JSON → String
  | .null => "null"
  | .bool _ => "bool"
  | .number _ => "number"
  | .string _ => "string"
  | .array _ => "array"
  | .object _ => "object"

/-- Storing one decoded JSON value into a nil `map[string]interface{}` variable:
an object fills the map, `null` leaves it nil (indexing a nil map finds nothing),
any other value is an `UnmarshalTypeError`. -/
def unmarshalMap : JSON → Except String GoMap
  | .object kvs => .ok kvs
  | .null => .ok []
  | v => .error ("json: cannot unmarshal " ++ v.kindName ++
      " into Go value of type map[string]interface \x7b\x7d")

/-! ## `strings.Trim` -/

/-- Loop of `strings.trimLeftByte`: drop leading bytes equal to `c`. -/
def trimLeftByte : List Char → Char → List Char
  | [], _ => []
  | x :: xs, c => if x = c then trimLeftByte xs c else x :: xs

/-- Loop of `strings.trimRightByte`: drop trailing bytes equal to `c`. -/
def trimRightByte (s : List Char) (c : Char) : List Char :=
  (trimLeftByte s.reverse c).reverse

/-- Drop leading bytes that occur in `cutset`. -/
def trimLeftSet : List Char → List Char → List Char
  | [], _ => []
  | x :: xs, cs => if x ∈ cs then trimLeftSet xs cs else x :: xs

/-- The function `strings.Trim(s, cutset)`: a one-byte cutset takes the byte loops. -/
def Trim (s cutset : String) : String :=
  if s = "" ∨ cutset = "" then s
  else
    match cutset.data with
    | [c] => ⟨trimLeftByte (trimRightByte s.data c) c⟩
    | cs => ⟨trimLeftSet (trimLeftSet s.data.reverse cs).reverse cs⟩

/-! ## `fmt.Sprintf("%.1f", x)` -/

/-- The integer nearest to ten times the magnitude, a tie going to the even one
(`strconv` rounds the exact decimal expansion of the binary value). -/
def Float64.tenths (f : Float64) : Nat :=
  match f.exp with
  | Int.ofNat e => f.mant * 2 ^ e * 10
  | Int.negSucc e =>
    let d := 2 ^ (e + 1)
    let n := f.mant * 10
    let q := n / d
    let r := n % d
    if d < 2 * r ∨ (2 * r = d ∧ q % 2 = 1) then q + 1 else q

/-- Rendering of a finite `float64` under the verb `%.1f`: a minus sign when the sign
bit is set, the integer digits, a point, one fraction digit. -/
def formatF1 (f : Float64) : String :=
  (if f.neg then "-" else "") ++ Nat.repr (f.tenths / 10) ++ "." ++ Nat.repr (f.tenths % 10)

/-! ## `net/url` -/

/-- The function `strings.Cut(s, sep)` for a one-byte separator: text before the first
`sep`, text after it, and whether `sep` occurs. -/
def cut : List Char → Char → List Char × List Char × Bool
  | [], _ => ([], [], false)
  | x :: xs, c =>
    if x = c then ([], xs, true)
    else
      let r := cut xs c
      (x :: r.1, r.2.1, r.2.2)

/-- Value of a hexadecimal digit (`unhex`), `none` when `c` is not one (`ishex`). -/
def unhex (c : Char) : Option Nat :=
  if '0' ≤ c ∧ c ≤ '9' then some (c.toNat - '0'.toNat)
  else if 'a' ≤ c ∧ c ≤ 'f' then some (c.toNat - 'a'.toNat + 10)
  else if 'A' ≤ c ∧ c ≤ 'F' then some (c.toNat - 'A'.toNat + 10)
  else none

/-- The function `url.QueryUnescape`: `%XX` becomes the byte `XX`, `+` becomes a space;
a `%` not followed by two hexadecimal digits is an error. -/
def QueryUnescape : List Char → Option (List Char)
  | [] => some []
  | '%' :: a :: b :: rest =>
    match unhex a, unhex b, QueryUnescape rest with
    | some h, some l, some t => some (Char.ofNat (h * 16 + l) :: t)
    | _, _, _ => none
  | '%' :: _ => none
  | '+' :: rest => (QueryUnescape rest).map (fun t => ' ' :: t)
  | x :: rest => (QueryUnescape rest).map (fun t => x :: t)

/-- One `key=value` piece of a query string (body of the loop of `url.parseQuery`):
`none` when the piece is skipped (empty, containing `;`, or with a bad escape). -/
def parsePair (piece : List Char) : Option (String × String) :=
  if ';' ∈ piece then none
  else if piece = [] then none
  else
    let kv := cut piece '='
    match QueryUnescape kv.1, QueryUnescape kv.2.1 with
    | some k, some v => some (⟨k⟩, ⟨v⟩)
    | _, _ => none

/-- Loop of `url.parseQuery`: the pieces between `&`, in order; `fuel` bounds the number
of pieces (the length of the query is always enough). -/
def parseQueryLoop : Nat → List Char → List (String × String)
  | 0, _ => []
  | fuel + 1, query =>
    if query = [] then []
    else
      let r := cut query '&'
      match parsePair r.1 with
      | some kv => kv :: parseQueryLoop fuel r.2.1
      | none => parseQueryLoop fuel r.2.1

/-- The `url.Values` obtained from a raw query string, as the list of `(key, value)`
additions in the order `parseQuery` makes them; errors are dropped as `URL.Query` does. -/
def parseQuery (query : String) : List (String × String) :=
  parseQueryLoop query.data.length query.data

/-- The method `Values.Get`: first value stored under `key`, or the empty string. -/
def Values.Get (v : List (String × String)) (key : String) : String :=
  match v.find? (fun kv => kv.1 == key) with
  | some kv => kv.2
  | none => ""

/-- Test of `stringContainsCTLByte` on one byte: below the space, or `0x7f`. -/
def isCTLByte (c : Char) : Bool :=
  decide (c.toNat < 0x20) || decide (c.toNat = 0x7f)

/-- The function `stringContainsCTLByte` of `net/url`. -/
def stringContainsCTLByte (s : List Char) : Bool :=
  s.any isCTLByte

/-- Well-formedness test of `unescape`: every `%` is followed by two hexadecimal
digits. -/
def validEscapes : List Char → Bool
  | [] => true
  | '%' :: a :: b :: rest => (unhex a).isSome && (unhex b).isSome && validEscapes rest
  | '%' :: _ => false
  | _ :: rest => validEscapes rest

/-- The `RawQuery` that `url.Parse` assigns to an address, `none` when `url.Parse`
returns an error.  The fragment (from the first `#`) is cut off; a control byte in what
is left is rejected (`invalid control character in URL`); the query is what follows the
first `?`; a fragment with a malformed escape is rejected by `setFragment`.  Scheme, host
and path, the text before the first `?`, are taken to be well formed, as they are in
every address this program builds. -/
def rawQueryOf (u : String) : Option String :=
  let r := cut u.data '#'
  if stringContainsCTLByte r.1 then none
  else if validEscapes r.2.1 then some ⟨(cut r.1 '?').2.1⟩
  else none

/-! ## `net/http` data -/

/-- A header map (`http.Header`): canonical key, list of values. -/
abbrev Header := List (String × List String)

/-- The map lookup `h[key]` (`Header.Values`): the values stored under `key`, none when
the key is missing.  Every key the program uses is already in canonical form. -/
def Header.Values (h : Header) (key : String) : List String :=
  match h.find? (fun kv => kv.1 == key) with
  | some kv => kv.2
  | none => []

/-- The method `Header.Get`: first value stored under `key`, or the empty string. -/
def Header.Get (h : Header) (key : String) : String :=
  (Header.Values h key).headD ""

/-- The method `Header.Del`: remove the entry of `key`. -/
def Header.Del (h : Header) (key : String) : Header :=
  h.filter (fun kv => !(kv.1 == key))

/-- The method `Header.Set`: the entry of `key` becomes the single value `value`. -/
def Header.Set (h : Header) (key value : String) : Header :=
  Header.Del h key ++ [(key, [value])]

/-- The fields of `*http.Request` the program reads. -/
structure Request where
  Method : String
  Header : Header
  RemoteAddr : String
  RawQuery : String

/-- The method `r.URL.Query()`. -/
def Request.Query (r : Request) : List (String × String) :=
  parseQuery r.RawQuery

/-- What a successful `http.Get` hands back, as far as the program looks at it:
the outcome of reading the first JSON value from `resp.Body` (a syntax or read
error carries its message). -/
structure Response where
  Body : Except String JSON

/-- The method `json.NewDecoder(body).Decode(&m)` for a nil `map[string]interface{}`. -/
def Response.Decode (resp : Response) : Except String GoMap :=
  match resp.Body with
  | .error err => .error err
  | .ok v => unmarshalMap v

/-- Everything outside the process that a request can observe. -/
structure World where
  /-- process environment: `none` is an unset variable -/
  environ : String → Option String
  /-- answer of `http.Get(url)`: an error message or a response -/
  httpGet : String → Except String Response

/-- The function `os.Getenv`: the value, or the empty string when unset. -/
def World.Getenv (w : World) (key : String) : String :=
  (w.environ key).getD ""

/-- The result record `IPInfo`. -/
structure IPInfo where
  IP : String
  Location : String
  Greeting : String
  deriving DecidableEq, Repr

/-- How a call of a Go function returning `(*T, error)` ends. -/
inductive Outcome (α : Type) where
  | ok (v : α) : Outcome α
  | error (msg : String) : Outcome α
  | panic (msg : String) : Outcome α
  deriving DecidableEq, Repr

/-- Address of the geolocation service. -/
def geoURL : String := "https://ipapi.co/json/"

/-- The call `fmt.Sprintf("https://api.openweathermap.org/data/2.5/weather?q=%s&appid=%s&units=metric", city, apiKey)`. -/
def weatherURL (city apiKey : String) : String :=
  "https://api.openweathermap.org/data/2.5/weather?q=" ++ city ++ "&appid=" ++ apiKey ++
    "&units=metric"

/-- The call `fmt.Sprintf("Hello, %s! The temperature is %.1f degrees Celsius in %s", ...)`. -/
def sprintfGreeting (visitorName : String) (temp : Float64) (city : String) : String :=
  "Hello, " ++ visitorName ++ "! The temperature is " ++ formatF1 temp ++
    " degrees Celsius in " ++ city

/-! ## `getIPInfo` -/

/-- The function `getIPInfo`.  The first component is the trace of `http.Get` calls the
run made, in order; the second is how the run ended. -/
def getIPInfo (r : Request) (w : World) : List String × Outcome IPInfo :=
  let clientIP := r.Header.Get "X-Forwarded-For"
  let clientIP := if clientIP = "" then r.RemoteAddr else clientIP
  match w.httpGet geoURL with
  | .error err => ([geoURL], .error ("error getting IP info: " ++ err))
  | .ok resp =>
    match resp.Decode with
    | .error err => ([geoURL], .error ("error decoding IP info: " ++ err))
    | .ok data =>
      let city := (data.index "city").assertString.1
      let apiKey := w.Getenv "OPENWEATHER_API_KEY"
      if apiKey = "" then ([geoURL], .error "OPENWEATHER_API_KEY not set")
      else
        match w.httpGet (weatherURL city apiKey) with
        | .error err =>
          ([geoURL, weatherURL city apiKey], .error ("error getting weather info: " ++ err))
        | .ok weatherResp =>
          match weatherResp.Decode with
          | .error err =>
            ([geoURL, weatherURL city apiKey], .error ("error decoding weather info: " ++ err))
          | .ok weatherData =>
            match (weatherData.index "main").mustMap with
            | .error p => ([geoURL, weatherURL city apiKey], .panic p)
            | .ok main =>
              let temp := (main.index "temp").assertFloat64.1
              let visitorName := Values.Get r.Query "visitor_name"
              let visitorName :=
                if visitorName = "" then
                  (if w.Getenv "NAME" = "" then "six-shot" else w.Getenv "NAME")
                else visitorName
              let visitorName := Trim visitorName "\""
              let greeting := sprintfGreeting visitorName temp city
              ([geoURL, weatherURL city apiKey],
                .ok { IP := clientIP, Location := city, Greeting := greeting })

/-! ## `handler` -/

/-- One `Write` on the response body. -/
inductive Chunk where
  /-- bytes written as they are -/
  | text (s : String) : Chunk
  /-- the line `json.Encoder.Encode` produces for an `IPInfo` -/
  | jsonLine (v : IPInfo) : Chunk
  deriving DecidableEq, Repr

/-- State of the `http.ResponseWriter`: header map, status line once written, body. -/
structure ResponseWriter where
  header : Header
  status : Option Nat
  body : List Chunk
  deriving DecidableEq, Repr

/-- A fresh writer. -/
def ResponseWriter.new : ResponseWriter := ⟨[], none, []⟩

/-- The call `w.Header().Set(key, value)`. -/
def ResponseWriter.SetHeader (rw : ResponseWriter) (key value : String) : ResponseWriter :=
  { rw with header := Header.Set rw.header key value }

/-- The method `WriteHeader`: the first call fixes the status. -/
def ResponseWriter.WriteHeader (rw : ResponseWriter) (code : Nat) : ResponseWriter :=
  match rw.status with
  | some _ => rw
  | none => { rw with status := some code }

/-- The method `Write`: sends status 200 first when no status was written. -/
def ResponseWriter.Write (rw : ResponseWriter) (c : Chunk) : ResponseWriter :=
  let rw := rw.WriteHeader 200
  { rw with body := rw.body ++ [c] }

/-- The function `http.Error(w, error, code)`. -/
def httpError (rw : ResponseWriter) (error : String) (code : Nat) : ResponseWriter :=
  let rw := { rw with header := Header.Del rw.header "Content-Length" }
  let rw := rw.SetHeader "Content-Type" "text/plain; charset=utf-8"
  let rw := rw.SetHeader "X-Content-Type-Options" "nosniff"
  let rw := rw.WriteHeader code
  rw.Write (.text (error ++ "\n"))

/-- How serving one request ends: a response, or a panic unwinding out of the handler
(the server then drops the connection without sending the response). -/
inductive Served where
  | response (rw : ResponseWriter) : Served
  | aborted (msg : String) : Served
  deriving DecidableEq, Repr

/-- The function `handler`, started on a fresh writer.  First component: trace of
outbound `http.Get` calls. -/
def handler (r : Request) (w : World) : List String × Served :=
  let rw := ResponseWriter.new
  let rw := rw.SetHeader "Access-Control-Allow-Origin" "*"
  let rw := rw.SetHeader "Access-Control-Allow-Methods" "GET, OPTIONS"
  let rw := rw.SetHeader "Access-Control-Allow-Headers" "Content-Type"
  if r.Method = "OPTIONS" then ([], .response (rw.WriteHeader 200))
  else
    match getIPInfo r w with
    | (tr, .panic p) => (tr, .aborted p)
    | (tr, .error err) => (tr, .response (httpError rw err 500))
    | (tr, .ok ipInfo) =>
      let rw := rw.SetHeader "Content-Type" "application/json"
      (tr, .response (rw.Write (.jsonLine ipInfo)))

/-! ## Derived constants and concrete inputs -/

/-- The three cross-origin headers, as `handler` stores them first. -/
def corsHeader : Header :=
  [("Access-Control-Allow-Origin", ["*"]),
   ("Access-Control-Allow-Methods", ["GET, OPTIONS"]),
   ("Access-Control-Allow-Headers", ["Content-Type"])]

/-- The `float64` nearest to 18.3, bit pattern `0x40324CCCCCCCCCCD`. -/
def temp18_3 : Float64 := ⟨false, 5150992073805005, -48⟩

/-- The request `GET /api/hello?visitor_name="Ada"` from `203.0.113.7`. -/
def adaRequest : Request :=
  ⟨"GET", [], "203.0.113.7:51234", "visitor_name=\"Ada\""⟩

/-- The request `OPTIONS /api/hello`. -/
def preflightRequest : Request :=
  ⟨"OPTIONS", [("Origin", ["https://example.org"])], "203.0.113.7:51234", ""⟩

/-- Geolocation answer with city `Berlin`. -/
def berlinBody : Response :=
  ⟨Except.ok (JSON.object [("ip", JSON.string "198.51.100.4"), ("city", JSON.string "Berlin")])⟩

/-- A world with an API key `k`, geolocation answering Berlin and the weather service
answering 18.3 degrees. -/
def berlinWorld : World where
  environ := fun key => if key = "OPENWEATHER_API_KEY" then some "k" else none
  httpGet := fun u =>
    if u = geoURL then Except.ok berlinBody
    else if u = weatherURL "Berlin" "k" then
      Except.ok ⟨Except.ok (JSON.object
        [("main", JSON.object [("temp", JSON.number temp18_3)]), ("name", JSON.string "Berlin")])⟩
    else Except.error "no such host"

/-- The same world without `OPENWEATHER_API_KEY`. -/
def noKeyWorld : World where
  environ := fun _ => none
  httpGet := berlinWorld.httpGet

/-- A world in which every outbound call times out. -/
def geoDownWorld : World where
  environ := berlinWorld.environ
  httpGet := fun _ => Except.error "context deadline exceeded"

/-- A world whose weather service answers with its error document, which has no
`main` member: `\x7b"cod":"404","message":"city not found"\x7d`. -/
def noMainWorld : World where
  environ := berlinWorld.environ
  httpGet := fun u =>
    if u = geoURL then Except.ok berlinBody
    else Except.ok ⟨Except.ok (JSON.object
      [("cod", JSON.string "404"), ("message", JSON.string "city not found")])⟩

/-- A request carrying `X-Forwarded-For: 198.51.100.23`. -/
def forwardedRequest : Request :=
  ⟨"GET", [("X-Forwarded-For", ["198.51.100.23"])], "10.0.0.2:40000", ""⟩

/-- The double-quote byte. -/
def dquote : Char := Char.ofNat 34

/-- Spec-side resolution of the visitor name before stripping: the query parameter when
non-empty, else the `NAME` variable when set and non-empty, else the literal. -/
def specChosenName (r : Request) (w : World) : String :=
  if Values.Get r.Query "visitor_name" ≠ "" then Values.Get r.Query "visitor_name"
  else
    match w.environ "NAME" with
    | some n => if n ≠ "" then n else "six-shot"
    | none => "six-shot"

/-- Text that `url.Parse` accepts inside a query and that the query parser of `net/url`
reads back unchanged as one value: without `&`, `#`, `%`, `+` and `;`, and without
control bytes. -/
def plainText (s : List Char) : Prop :=
  '&' ∉ s ∧ '#' ∉ s ∧ '%' ∉ s ∧ '+' ∉ s ∧ ';' ∉ s ∧ stringContainsCTLByte s = false

instance (s : List Char) : Decidable (plainText s) := by
  unfold plainText
  infer_instance

/-- A world whose geolocation service names the city `Brighton & Hove`. -/
def hoveWorld : World where
  environ := berlinWorld.environ
  httpGet := fun u =>
    if u = geoURL then
      Except.ok ⟨Except.ok (JSON.object [("city", JSON.string "Brighton & Hove")])⟩
    else Except.error "no such host"

/-! ## Equations of `getIPInfo`, one per way a run can end -/

theorem getIPInfo_geo_error {r : Request} {w : World} {err : String}
    (h : w.httpGet geoURL = .error err) :
    getIPInfo r w = ([geoURL], .error ("error getting IP info: " ++ err)) := by
  simp [getIPInfo, h]

theorem getIPInfo_geo_decode_error {r : Request} {w : World} {resp : Response} {err : String}
    (h : w.httpGet geoURL = .ok resp) (hd : resp.Decode = .error err) :
    getIPInfo r w = ([geoURL], .error ("error decoding IP info: " ++ err)) := by
  simp [getIPInfo, h, hd]

theorem getIPInfo_no_key {r : Request} {w : World} {resp : Response} {data : GoMap}
    (h : w.httpGet geoURL = .ok resp) (hd : resp.Decode = .ok data)
    (hk : w.Getenv "OPENWEATHER_API_KEY" = "") :
    getIPInfo r w = ([geoURL], .error "OPENWEATHER_API_KEY not set") := by
  simp [getIPInfo, h, hd, hk]

theorem getIPInfo_weather_error {r : Request} {w : World} {resp : Response} {data : GoMap}
    {err : String}
    (h : w.httpGet geoURL = .ok resp) (hd : resp.Decode = .ok data)
    (hk : w.Getenv "OPENWEATHER_API_KEY" ≠ "")
    (hw : w.httpGet (weatherURL (data.index "city").assertString.1
      (w.Getenv "OPENWEATHER_API_KEY")) = .error err) :
    getIPInfo r w = ([geoURL, weatherURL (data.index "city").assertString.1
      (w.Getenv "OPENWEATHER_API_KEY")], .error ("error getting weather info: " ++ err)) := by
  simp [getIPInfo, h, hd, hk, hw]

theorem getIPInfo_weather_decode_error {r : Request} {w : World} {resp wresp : Response}
    {data : GoMap} {err : String}
    (h : w.httpGet geoURL = .ok resp) (hd : resp.Decode = .ok data)
    (hk : w.Getenv "OPENWEATHER_API_KEY" ≠ "")
    (hw : w.httpGet (weatherURL (data.index "city").assertString.1
      (w.Getenv "OPENWEATHER_API_KEY")) = .ok wresp)
    (hwd : wresp.Decode = .error err) :
    getIPInfo r w = ([geoURL, weatherURL (data.index "city").assertString.1
      (w.Getenv "OPENWEATHER_API_KEY")], .error ("error decoding weather info: " ++ err)) := by
  simp [getIPInfo, h, hd, hk, hw, hwd]

theorem getIPInfo_main_panic {r : Request} {w : World} {resp wresp : Response}
    {data wdata : GoMap} {p : String}
    (h : w.httpGet geoURL = .ok resp) (hd : resp.Decode = .ok data)
    (hk : w.Getenv "OPENWEATHER_API_KEY" ≠ "")
    (hw : w.httpGet (weatherURL (data.index "city").assertString.1
      (w.Getenv "OPENWEATHER_API_KEY")) = .ok wresp)
    (hwd : wresp.Decode = .ok wdata)
    (hm : (wdata.index "main").mustMap = .error p) :
    getIPInfo r w = ([geoURL, weatherURL (data.index "city").assertString.1
      (w.Getenv "OPENWEATHER_API_KEY")], .panic p) := by
  simp [getIPInfo, h, hd, hk, hw, hwd, hm]

theorem getIPInfo_success {r : Request} {w : World} {resp wresp : Response}
    {data wdata main : GoMap}
    (h : w.httpGet geoURL = .ok resp) (hd : resp.Decode = .ok data)
    (hk : w.Getenv "OPENWEATHER_API_KEY" ≠ "")
    (hw : w.httpGet (weatherURL (data.index "city").assertString.1
      (w.Getenv "OPENWEATHER_API_KEY")) = .ok wresp)
    (hwd : wresp.Decode = .ok wdata)
    (hm : (wdata.index "main").mustMap = .ok main) :
    getIPInfo r w = ([geoURL, weatherURL (data.index "city").assertString.1
      (w.Getenv "OPENWEATHER_API_KEY")],
      .ok { IP := if r.Header.Get "X-Forwarded-For" = "" then r.RemoteAddr
                  else r.Header.Get "X-Forwarded-For",
            Location := (data.index "city").assertString.1,
            Greeting := sprintfGreeting
              (Trim (if Values.Get r.Query "visitor_name" = "" then
                  (if w.Getenv "NAME" = "" then "six-shot" else w.Getenv "NAME")
                else Values.Get r.Query "visitor_name") "\"")
              (main.index "temp").assertFloat64.1
              (data.index "city").assertString.1 }) := by
  simp [getIPInfo, h, hd, hk, hw, hwd, hm]


/-- Every successful run went through all six steps. -/
theorem getIPInfo_ok_inv {r : Request} {w : World} {tr : List String} {info : IPInfo}
    (h : getIPInfo r w = (tr, .ok info)) :
    ∃ (resp wresp : Response) (data wdata main : GoMap),
      w.httpGet geoURL = .ok resp ∧ resp.Decode = .ok data ∧
      w.Getenv "OPENWEATHER_API_KEY" ≠ "" ∧
      w.httpGet (weatherURL (data.index "city").assertString.1
        (w.Getenv "OPENWEATHER_API_KEY")) = .ok wresp ∧
      wresp.Decode = .ok wdata ∧ (wdata.index "main").mustMap = .ok main ∧
      tr = [geoURL, weatherURL (data.index "city").assertString.1
        (w.Getenv "OPENWEATHER_API_KEY")] ∧
      info = IPInfo.mk
        (if r.Header.Get "X-Forwarded-For" = "" then r.RemoteAddr
          else r.Header.Get "X-Forwarded-For")
        (data.index "city").assertString.1
        (sprintfGreeting
          (Trim (if Values.Get r.Query "visitor_name" = "" then
              (if w.Getenv "NAME" = "" then "six-shot" else w.Getenv "NAME")
            else Values.Get r.Query "visitor_name") "\"")
          (main.index "temp").assertFloat64.1
          (data.index "city").assertString.1) := by
  cases h1 : w.httpGet geoURL with
  | error err => rw [getIPInfo_geo_error h1] at h; simp at h
  | ok resp =>
    cases h2 : resp.Decode with
    | error err => rw [getIPInfo_geo_decode_error h1 h2] at h; simp at h
    | ok data =>
      by_cases hk : w.Getenv "OPENWEATHER_API_KEY" = ""
      · rw [getIPInfo_no_key h1 h2 hk] at h; simp at h
      · cases h3 : w.httpGet (weatherURL (data.index "city").assertString.1
            (w.Getenv "OPENWEATHER_API_KEY")) with
        | error err => rw [getIPInfo_weather_error h1 h2 hk h3] at h; simp at h
        | ok wresp =>
          cases h4 : wresp.Decode with
          | error err => rw [getIPInfo_weather_decode_error h1 h2 hk h3 h4] at h; simp at h
          | ok wdata =>
            cases h5 : (wdata.index "main").mustMap with
            | error p => rw [getIPInfo_main_panic h1 h2 hk h3 h4 h5] at h; simp at h
            | ok main =>
              rw [getIPInfo_success h1 h2 hk h3 h4 h5] at h
              simp only [Prod.mk.injEq, Outcome.ok.injEq] at h
              exact ⟨resp, wresp, data, wdata, main, rfl, h2, hk, h3, h4, h5, h.1.symm,
                h.2.symm⟩

/-- The trace of a run: the geolocation call alone, or the geolocation call followed by
the weather call, the latter only after the geolocation answer was decoded and a key
was found. -/
theorem getIPInfo_trace (r : Request) (w : World) :
    (getIPInfo r w).1 = [geoURL] ∨
    ∃ (resp : Response) (data : GoMap),
      w.httpGet geoURL = .ok resp ∧ resp.Decode = .ok data ∧
      w.Getenv "OPENWEATHER_API_KEY" ≠ "" ∧
      (getIPInfo r w).1 = [geoURL, weatherURL (data.index "city").assertString.1
        (w.Getenv "OPENWEATHER_API_KEY")] := by
  cases h1 : w.httpGet geoURL with
  | error err => rw [getIPInfo_geo_error h1]; simp
  | ok resp =>
    cases h2 : resp.Decode with
    | error err => rw [getIPInfo_geo_decode_error h1 h2]; simp
    | ok data =>
      by_cases hk : w.Getenv "OPENWEATHER_API_KEY" = ""
      · rw [getIPInfo_no_key h1 h2 hk]; simp
      · right
        refine ⟨resp, data, rfl, h2, hk, ?_⟩
        cases h3 : w.httpGet (weatherURL (data.index "city").assertString.1
            (w.Getenv "OPENWEATHER_API_KEY")) with
        | error err => rw [getIPInfo_weather_error h1 h2 hk h3]
        | ok wresp =>
          cases h4 : wresp.Decode with
          | error err => rw [getIPInfo_weather_decode_error h1 h2 hk h3 h4]
          | ok wdata =>
            cases h5 : (wdata.index "main").mustMap with
            | error p => rw [getIPInfo_main_panic h1 h2 hk h3 h4 h5]
            | ok main => rw [getIPInfo_success h1 h2 hk h3 h4 h5]

/-- The weather address never equals the geolocation address. -/
theorem weatherURL_ne_geoURL (c k : String) : weatherURL c k ≠ geoURL := by
  intro h
  have := congrArg (fun s => s.data.get? 8) h
  simp [weatherURL, geoURL, String.data_append] at this

/-! ## The handler -/

theorem handler_options {r : Request} (w : World) (h : r.Method = "OPTIONS") :
    handler r w = ([], .response ⟨corsHeader, some 200, []⟩) := by
  simp only [handler, h, if_true]
  rfl

theorem handler_error {r : Request} {w : World} {tr : List String} {e : String}
    (hm : r.Method ≠ "OPTIONS") (h : getIPInfo r w = (tr, .error e)) :
    handler r w = (tr, .response
      ⟨corsHeader ++ [("Content-Type", ["text/plain; charset=utf-8"]),
          ("X-Content-Type-Options", ["nosniff"])],
        some 500, [.text (e ++ "\n")]⟩) := by
  simp only [handler, h, if_neg hm]
  rfl

theorem handler_ok {r : Request} {w : World} {tr : List String} {info : IPInfo}
    (hm : r.Method ≠ "OPTIONS") (h : getIPInfo r w = (tr, .ok info)) :
    handler r w = (tr, .response
      ⟨corsHeader ++ [("Content-Type", ["application/json"])], some 200, [.jsonLine info]⟩) := by
  simp only [handler, h, if_neg hm]
  rfl

theorem handler_panic {r : Request} {w : World} {tr : List String} {p : String}
    (hm : r.Method ≠ "OPTIONS") (h : getIPInfo r w = (tr, .panic p)) :
    handler r w = (tr, .aborted p) := by
  simp only [handler, h, if_neg hm]

/-- The function `os.Getenv` gives the empty string exactly for an unset or empty
variable. -/
theorem getenv_eq_empty_iff (w : World) (key : String) :
    w.Getenv key = "" ↔ (w.environ key = none ∨ w.environ key = some "") := by
  unfold World.Getenv
  cases w.environ key <;> simp

/-! ## Claims about the handler and the order of calls -/

/-- C4 (amended): on a non-preflight request for which `getIPInfo` returns an error `e`,
the handler answers status 500 with content type `text/plain; charset=utf-8` and a body
that is the message of `e` followed by one newline; when `getIPInfo` succeeds it answers
status 200 with content type `application/json` and the encoded record as body. -/
theorem C4_handler_error_and_success (r : Request) (w : World) (tr : List String)
    (hm : r.Method ≠ "OPTIONS") :
    (∀ e, getIPInfo r w = (tr, .error e) →
      ∃ rw, handler r w = (tr, .response rw) ∧ rw.status = some 500 ∧
        rw.header.Get "Content-Type" = "text/plain; charset=utf-8" ∧
        rw.body = [.text (e ++ "\n")]) ∧
    (∀ info, getIPInfo r w = (tr, .ok info) →
      ∃ rw, handler r w = (tr, .response rw) ∧ rw.status = some 200 ∧
        rw.header.Get "Content-Type" = "application/json" ∧
        rw.body = [.jsonLine info]) := by
  constructor
  · intro e h
    exact ⟨_, handler_error hm h, rfl, rfl, rfl⟩
  · intro info h
    exact ⟨_, handler_ok hm h, rfl, rfl, rfl⟩

/-- C4, instance: a timed-out geolocation call gives the 500 answer, and the Berlin
world gives the 200 answer. -/
theorem C4_handler_error_and_success_witness :
    (adaRequest.Method ≠ "OPTIONS" ∧
      getIPInfo adaRequest geoDownWorld =
        ([geoURL], .error "error getting IP info: context deadline exceeded") ∧
      ∃ rw, handler adaRequest geoDownWorld = ([geoURL], .response rw) ∧
        rw.status = some 500 ∧
        rw.header.Get "Content-Type" = "text/plain; charset=utf-8" ∧
        rw.body = [.text ("error getting IP info: context deadline exceeded" ++ "\n")]) ∧
    (getIPInfo adaRequest berlinWorld =
        ([geoURL, weatherURL "Berlin" "k"], .ok ⟨"203.0.113.7:51234", "Berlin",
          "Hello, Ada! The temperature is 18.3 degrees Celsius in Berlin"⟩) ∧
      ∃ rw, handler adaRequest berlinWorld =
          ([geoURL, weatherURL "Berlin" "k"], .response rw) ∧
        rw.status = some 200 ∧ rw.header.Get "Content-Type" = "application/json" ∧
        rw.body = [.jsonLine ⟨"203.0.113.7:51234", "Berlin",
          "Hello, Ada! The temperature is 18.3 degrees Celsius in Berlin"⟩]) :=
  ⟨⟨by decide, by decide,
      (C4_handler_error_and_success adaRequest geoDownWorld [geoURL] (by decide)).1 _
        (by decide)⟩,
    ⟨by decide,
      (C4_handler_error_and_success adaRequest berlinWorld [geoURL, weatherURL "Berlin" "k"]
        (by decide)).2 _ (by decide)⟩⟩

/-- C4 as written fails: the body of the 500 answer is never the bare message, because
`http.Error` writes the message with `Fprintln`. -/
theorem C4_body_is_message_refuted :
    ¬ (∀ (r : Request) (w : World) (tr : List String) (e : String),
        r.Method ≠ "OPTIONS" → getIPInfo r w = (tr, .error e) →
        ∃ rw, handler r w = (tr, .response rw) ∧ rw.status = some 500 ∧
          rw.body = [.text e]) := by
  intro h
  obtain ⟨rw, h1, _, h3⟩ := h adaRequest geoDownWorld [geoURL]
    "error getting IP info: context deadline exceeded" (by decide) (by decide)
  have h2 : handler adaRequest geoDownWorld = ([geoURL], .response
      ⟨corsHeader ++ [("Content-Type", ["text/plain; charset=utf-8"]),
          ("X-Content-Type-Options", ["nosniff"])],
        some 500, [.text ("error getting IP info: context deadline exceeded" ++ "\n")]⟩) := by
    decide
  rw [h2] at h1
  simp only [Prod.mk.injEq, Served.response.injEq, true_and] at h1
  rw [← h1] at h3
  revert h3
  decide


/-- C5: with `OPENWEATHER_API_KEY` unset or empty, `getIPInfo` ends in an error and its
trace is the geolocation call alone, so no weather address was requested; when the
geolocation answer was obtained and decoded the message is exactly
`OPENWEATHER_API_KEY not set`, and the handler, on a request it passes to `getIPInfo`,
answers 500. -/
theorem C5_missing_api_key (r : Request) (w : World)
    (hkey : w.environ "OPENWEATHER_API_KEY" = none ∨
      w.environ "OPENWEATHER_API_KEY" = some "") :
    (∃ e, getIPInfo r w = ([geoURL], .error e)) ∧
    (∀ c k, weatherURL c k ∉ (getIPInfo r w).1) ∧
    (∀ resp data, w.httpGet geoURL = .ok resp → resp.Decode = .ok data →
      getIPInfo r w = ([geoURL], .error "OPENWEATHER_API_KEY not set") ∧
      (r.Method ≠ "OPTIONS" →
        ∃ rw, handler r w = ([geoURL], .response rw) ∧ rw.status = some 500 ∧
          rw.body = [.text ("OPENWEATHER_API_KEY not set" ++ "\n")])) := by
  have hk : w.Getenv "OPENWEATHER_API_KEY" = "" := (getenv_eq_empty_iff w _).2 hkey
  have key : ∃ e, getIPInfo r w = ([geoURL], .error e) := by
    cases h1 : w.httpGet geoURL with
    | error err => exact ⟨_, getIPInfo_geo_error h1⟩
    | ok resp =>
      cases h2 : resp.Decode with
      | error err => exact ⟨_, getIPInfo_geo_decode_error h1 h2⟩
      | ok data => exact ⟨_, getIPInfo_no_key h1 h2 hk⟩
  refine ⟨key, ?_, ?_⟩
  · intro c k hmem
    obtain ⟨e, he⟩ := key
    rw [he] at hmem
    simp only [List.mem_singleton] at hmem
    exact weatherURL_ne_geoURL c k hmem
  · intro resp data h1 h2
    have hg := getIPInfo_no_key (r := r) h1 h2 hk
    exact ⟨hg, fun hm => ⟨_, handler_error hm hg, rfl, rfl⟩⟩

/-- C5, instance: the Berlin world without the key. -/
theorem C5_missing_api_key_witness :
    (noKeyWorld.environ "OPENWEATHER_API_KEY" = none ∨
      noKeyWorld.environ "OPENWEATHER_API_KEY" = some "") ∧
    noKeyWorld.httpGet geoURL = .ok berlinBody ∧
    berlinBody.Decode = .ok [("ip", JSON.string "198.51.100.4"), ("city", JSON.string "Berlin")] ∧
    adaRequest.Method ≠ "OPTIONS" ∧
    getIPInfo adaRequest noKeyWorld = ([geoURL], .error "OPENWEATHER_API_KEY not set") ∧
    ∃ rw, handler adaRequest noKeyWorld = ([geoURL], .response rw) ∧ rw.status = some 500 ∧
      rw.body = [.text ("OPENWEATHER_API_KEY not set" ++ "\n")] :=
  ⟨Or.inl rfl, rfl, rfl, by decide,
    ((C5_missing_api_key adaRequest noKeyWorld (Or.inl rfl)).2.2 berlinBody _ rfl rfl).1,
    ((C5_missing_api_key adaRequest noKeyWorld (Or.inl rfl)).2.2 berlinBody _ rfl rfl).2
      (by decide)⟩

/-- C6: a request whose method is `OPTIONS` makes no outbound call (the trace is empty,
`getIPInfo` is not run) and is answered with status 200 and an empty body, in every
world. -/
theorem C6_preflight_no_calls (r : Request) (w : World) (h : r.Method = "OPTIONS") :
    ∃ rw, handler r w = ([], .response rw) ∧ rw.status = some 200 ∧ rw.body = [] :=
  ⟨_, handler_options w h, rfl, rfl⟩

/-- C6, instance: a preflight request in a world whose services would all answer. -/
theorem C6_preflight_no_calls_witness :
    preflightRequest.Method = "OPTIONS" ∧
    ∃ rw, handler preflightRequest berlinWorld = ([], .response rw) ∧
      rw.status = some 200 ∧ rw.body = [] :=
  ⟨rfl, C6_preflight_no_calls preflightRequest berlinWorld rfl⟩

/-- C7: when the geolocation step fails (the call returns an error, or its body does not
decode), `getIPInfo` returns an error and its trace is the geolocation call alone; and in
any run, a weather address in the trace means the geolocation call succeeded and decoded,
and the trace is the geolocation call followed by that weather call. -/
theorem C7_weather_only_after_geolocation (r : Request) (w : World) :
    (((∃ err, w.httpGet geoURL = .error err) ∨
        (∃ resp err, w.httpGet geoURL = .ok resp ∧ resp.Decode = .error err)) →
      (∃ e, getIPInfo r w = ([geoURL], .error e)) ∧
      ∀ c k, weatherURL c k ∉ (getIPInfo r w).1) ∧
    (∀ c k, weatherURL c k ∈ (getIPInfo r w).1 →
      ∃ resp data, w.httpGet geoURL = .ok resp ∧ resp.Decode = .ok data ∧
        (getIPInfo r w).1 = [geoURL, weatherURL c k]) := by
  constructor
  · intro hfail
    have key : ∃ e, getIPInfo r w = ([geoURL], .error e) := by
      rcases hfail with ⟨err, h1⟩ | ⟨resp, err, h1, h2⟩
      · exact ⟨_, getIPInfo_geo_error h1⟩
      · exact ⟨_, getIPInfo_geo_decode_error h1 h2⟩
    refine ⟨key, ?_⟩
    intro c k hmem
    obtain ⟨e, he⟩ := key
    rw [he] at hmem
    simp only [List.mem_singleton] at hmem
    exact weatherURL_ne_geoURL c k hmem
  · intro c k hmem
    rcases getIPInfo_trace r w with ht | ⟨resp, data, h1, h2, _, ht⟩
    · rw [ht] at hmem
      simp only [List.mem_singleton] at hmem
      exact absurd hmem (weatherURL_ne_geoURL c k)
    · refine ⟨resp, data, h1, h2, ?_⟩
      rw [ht] at hmem ⊢
      simp only [List.mem_cons, List.mem_singleton, List.not_mem_nil, or_false] at hmem
      rcases hmem with hmem | hmem
      · exact absurd hmem (weatherURL_ne_geoURL c k)
      · rw [hmem]

/-- C7, instance: the geolocation call times out; and in the Berlin world the weather
call follows the decoded geolocation answer. -/
theorem C7_weather_only_after_geolocation_witness :
    (((∃ err, geoDownWorld.httpGet geoURL = .error err) ∨
        (∃ resp err, geoDownWorld.httpGet geoURL = .ok resp ∧ resp.Decode = .error err)) ∧
      (∃ e, getIPInfo adaRequest geoDownWorld = ([geoURL], .error e)) ∧
      ∀ c k, weatherURL c k ∉ (getIPInfo adaRequest geoDownWorld).1) ∧
    (weatherURL "Berlin" "k" ∈ (getIPInfo adaRequest berlinWorld).1 ∧
      ∃ resp data, berlinWorld.httpGet geoURL = .ok resp ∧ resp.Decode = .ok data ∧
        (getIPInfo adaRequest berlinWorld).1 = [geoURL, weatherURL "Berlin" "k"]) :=
  ⟨⟨Or.inl ⟨_, rfl⟩,
      (C7_weather_only_after_geolocation adaRequest geoDownWorld).1 (Or.inl ⟨_, rfl⟩)⟩,
    ⟨by decide,
      (C7_weather_only_after_geolocation adaRequest berlinWorld).2 "Berlin" "k" (by decide)⟩⟩

/-- C8: when `getIPInfo` succeeds, `client_ip` is the `X-Forwarded-For` header value when
that is non-empty and `RemoteAddr` otherwise, and `location` is the string under `city`
in the decoded geolocation answer, the empty string when `city` is missing or is not a
string. -/
theorem C8_client_ip_and_location (r : Request) (w : World) (tr : List String)
    (info : IPInfo) (h : getIPInfo r w = (tr, .ok info)) :
    info.IP = (if r.Header.Get "X-Forwarded-For" ≠ "" then r.Header.Get "X-Forwarded-For"
      else r.RemoteAddr) ∧
    ∃ resp data, w.httpGet geoURL = .ok resp ∧ resp.Decode = .ok data ∧
      info.Location = (match data.index "city" with
        | JSON.string s => s
        | _ => "") := by
  obtain ⟨resp, wresp, data, wdata, main, h1, h2, _, _, _, _, _, hinfo⟩ := getIPInfo_ok_inv h
  subst hinfo
  refine ⟨?_, resp, data, h1, h2, ?_⟩
  · by_cases hx : r.Header.Get "X-Forwarded-For" = "" <;> simp [hx]
  · simp only [JSON.assertString]
    cases data.index "city" <;> rfl


/-- C8, instance: a proxied request in the Berlin world. -/
theorem C8_client_ip_and_location_witness :
    getIPInfo forwardedRequest berlinWorld =
      ([geoURL, weatherURL "Berlin" "k"], .ok ⟨"198.51.100.23", "Berlin",
        "Hello, six-shot! The temperature is 18.3 degrees Celsius in Berlin"⟩) ∧
    ((⟨"198.51.100.23", "Berlin",
        "Hello, six-shot! The temperature is 18.3 degrees Celsius in Berlin"⟩ : IPInfo).IP =
      (if forwardedRequest.Header.Get "X-Forwarded-For" ≠ "" then
        forwardedRequest.Header.Get "X-Forwarded-For" else forwardedRequest.RemoteAddr) ∧
    ∃ resp data, berlinWorld.httpGet geoURL = .ok resp ∧ resp.Decode = .ok data ∧
      (⟨"198.51.100.23", "Berlin",
        "Hello, six-shot! The temperature is 18.3 degrees Celsius in Berlin"⟩ : IPInfo).Location =
      (match data.index "city" with
        | JSON.string s => s
        | _ => "")) :=
  ⟨by decide, C8_client_ip_and_location forwardedRequest berlinWorld
    [geoURL, weatherURL "Berlin" "k"] ⟨"198.51.100.23", "Berlin",
      "Hello, six-shot! The temperature is 18.3 degrees Celsius in Berlin"⟩ (by decide)⟩

/-- C9: whenever `handler` produces a response (preflight, error 500 or success 200), the
header map of that response holds `Access-Control-Allow-Origin: *`,
`Access-Control-Allow-Methods: GET, OPTIONS` and `Access-Control-Allow-Headers:
Content-Type`, each with exactly that one value. -/
theorem C9_cors_headers_on_every_response (r : Request) (w : World) (rw : ResponseWriter)
    (h : (handler r w).2 = .response rw) :
    rw.header.Values "Access-Control-Allow-Origin" = ["*"] ∧
    rw.header.Values "Access-Control-Allow-Methods" = ["GET, OPTIONS"] ∧
    rw.header.Values "Access-Control-Allow-Headers" = ["Content-Type"] ∧
    ((r.Method = "OPTIONS" ∧ rw.status = some 200 ∧ rw.body = []) ∨
      (r.Method ≠ "OPTIONS" ∧ rw.status = some 500 ∧
        ∃ e, (getIPInfo r w).2 = .error e) ∨
      (r.Method ≠ "OPTIONS" ∧ rw.status = some 200 ∧
        ∃ info, (getIPInfo r w).2 = .ok info)) := by
  by_cases hm : r.Method = "OPTIONS"
  · rw [handler_options w hm] at h
    simp only [Served.response.injEq] at h
    subst h
    exact ⟨rfl, rfl, rfl, Or.inl ⟨hm, rfl, rfl⟩⟩
  · rcases hg : getIPInfo r w with ⟨tr, o⟩
    cases o with
    | ok info =>
      rw [handler_ok hm hg] at h
      simp only [Served.response.injEq] at h
      subst h
      exact ⟨rfl, rfl, rfl, Or.inr (Or.inr ⟨hm, rfl, info, rfl⟩)⟩
    | error e =>
      rw [handler_error hm hg] at h
      simp only [Served.response.injEq] at h
      subst h
      exact ⟨rfl, rfl, rfl, Or.inr (Or.inl ⟨hm, rfl, e, rfl⟩)⟩
    | panic p =>
      rw [handler_panic hm hg] at h
      simp at h

/-- C9, instance: the 500 answer given when the key is missing. -/
theorem C9_cors_headers_on_every_response_witness :
    (handler adaRequest noKeyWorld).2 = .response
      ⟨corsHeader ++ [("Content-Type", ["text/plain; charset=utf-8"]),
          ("X-Content-Type-Options", ["nosniff"])],
        some 500, [.text "OPENWEATHER_API_KEY not set\n"]⟩ ∧
    Header.Values (corsHeader ++ [("Content-Type", ["text/plain; charset=utf-8"]),
      ("X-Content-Type-Options", ["nosniff"])]) "Access-Control-Allow-Origin" = ["*"] :=
  ⟨by decide, (C9_cors_headers_on_every_response adaRequest noKeyWorld
    ⟨corsHeader ++ [("Content-Type", ["text/plain; charset=utf-8"]),
        ("X-Content-Type-Options", ["nosniff"])],
      some 500, [.text "OPENWEATHER_API_KEY not set\n"]⟩ (by decide)).1⟩

/-! ## The temperature lookup -/

/-- C1 fails on the code: when the weather answer decodes as an object whose `main` member
is missing, `null` or anything but an object, the unchecked assertion
`weatherData["main"].(map[string]interface{})` panics; `getIPInfo` returns neither a
greeting nor an error and the handler sends no response. -/
theorem C1_main_not_an_object_panics (r : Request) (w : World) (resp wresp : Response)
    (data kvs : GoMap)
    (h1 : w.httpGet geoURL = .ok resp) (h2 : resp.Decode = .ok data)
    (hk : w.Getenv "OPENWEATHER_API_KEY" ≠ "")
    (h3 : w.httpGet (weatherURL (data.index "city").assertString.1
      (w.Getenv "OPENWEATHER_API_KEY")) = .ok wresp)
    (h4 : wresp.Body = .ok (JSON.object kvs))
    (h5 : ∀ m, GoMap.index kvs "main" ≠ JSON.object m) :
    ∃ p, getIPInfo r w = ([geoURL, weatherURL (data.index "city").assertString.1
        (w.Getenv "OPENWEATHER_API_KEY")], .panic p) ∧
      (r.Method ≠ "OPTIONS" →
        handler r w = ([geoURL, weatherURL (data.index "city").assertString.1
          (w.Getenv "OPENWEATHER_API_KEY")], .aborted p)) := by
  have hd : wresp.Decode = .ok kvs := by simp [Response.Decode, h4, unmarshalMap]
  have hm : ∃ p, (GoMap.index kvs "main").mustMap = .error p := by
    cases hv : GoMap.index kvs "main" with
    | object m => exact absurd hv (h5 m)
    | null => exact ⟨_, rfl⟩
    | bool b => exact ⟨_, rfl⟩
    | number f => exact ⟨_, rfl⟩
    | string s => exact ⟨_, rfl⟩
    | array xs => exact ⟨_, rfl⟩
  obtain ⟨p, hp⟩ := hm
  have hg := getIPInfo_main_panic (r := r) h1 h2 hk h3 hd hp
  exact ⟨p, hg, fun hmeth => handler_panic hmeth hg⟩

/-- C1, failing input: the weather service answers
`\x7b"cod":"404","message":"city not found"\x7d`. -/
theorem C1_main_not_an_object_panics_witness :
    getIPInfo adaRequest noMainWorld = ([geoURL, weatherURL "Berlin" "k"],
      .panic "interface conversion: interface \x7b\x7d is nil, not map[string]interface \x7b\x7d") ∧
    handler adaRequest noMainWorld = ([geoURL, weatherURL "Berlin" "k"],
      .aborted "interface conversion: interface \x7b\x7d is nil, not map[string]interface \x7b\x7d") ∧
    ∃ p, getIPInfo adaRequest noMainWorld = ([geoURL, weatherURL "Berlin" "k"], .panic p) ∧
      (adaRequest.Method ≠ "OPTIONS" →
        handler adaRequest noMainWorld = ([geoURL, weatherURL "Berlin" "k"], .aborted p)) :=
  ⟨by decide, by decide,
    C1_main_not_an_object_panics adaRequest noMainWorld berlinBody
      ⟨Except.ok (JSON.object
        [("cod", JSON.string "404"), ("message", JSON.string "city not found")])⟩
      [("ip", JSON.string "198.51.100.4"), ("city", JSON.string "Berlin")]
      [("cod", JSON.string "404"), ("message", JSON.string "city not found")]
      rfl rfl (by decide) rfl rfl (by intro m hm; cases hm)⟩


/-! ## The visitor name and the greeting -/

theorem trimLeftByte_spec (s : List Char) (c : Char) :
    ∃ a, s = List.replicate a c ++ trimLeftByte s c ∧ (trimLeftByte s c).head? ≠ some c := by
  induction s with
  | nil => exact ⟨0, rfl, by simp [trimLeftByte]⟩
  | cons x xs ih =>
    by_cases hx : x = c
    · obtain ⟨a, h1, h2⟩ := ih
      refine ⟨a + 1, ?_, ?_⟩
      · simp only [trimLeftByte, if_pos hx, List.replicate_succ, List.cons_append]
        rw [← h1, hx]
      · simpa only [trimLeftByte, if_pos hx] using h2
    · refine ⟨0, ?_, ?_⟩
      · simp [trimLeftByte, hx]
      · simp [trimLeftByte, hx]

theorem trimRightByte_spec (s : List Char) (c : Char) :
    ∃ b, s = trimRightByte s c ++ List.replicate b c ∧
      (trimRightByte s c).getLast? ≠ some c := by
  obtain ⟨b, h1, h2⟩ := trimLeftByte_spec s.reverse c
  refine ⟨b, ?_, ?_⟩
  · have := congrArg List.reverse h1
    simpa [trimRightByte] using this
  · simpa [trimRightByte, List.getLast?_reverse] using h2

theorem Trim_dquote (s : String) :
    Trim s "\"" = ⟨trimLeftByte (trimRightByte s.data dquote) dquote⟩ := by
  unfold Trim
  split
  · rename_i h
    rcases h with h | h
    · subst h; rfl
    · exact absurd h (by decide)
  · rfl

theorem Trim_dquote_spec (s : String) :
    ∃ a b, s.data = List.replicate a dquote ++ (Trim s "\"").data ++ List.replicate b dquote ∧
      (Trim s "\"").data.head? ≠ some dquote ∧ (Trim s "\"").data.getLast? ≠ some dquote := by
  rw [Trim_dquote]
  obtain ⟨b, hb, hlast⟩ := trimRightByte_spec s.data dquote
  obtain ⟨a, ha, hhead⟩ := trimLeftByte_spec (trimRightByte s.data dquote) dquote
  refine ⟨a, b, ?_, hhead, ?_⟩
  · simp only
    rw [← ha, ← hb]
  · simp only
    intro hl
    apply hlast
    rw [ha]
    cases ht : trimLeftByte (trimRightByte s.data dquote) dquote with
    | nil => rw [ht] at hl; simp at hl
    | cons x xs =>
      rw [ht] at hl
      rw [List.getLast?_append_of_ne_nil _ (by simp)]
      exact hl

theorem chosenName_eq (r : Request) (w : World) :
    (if Values.Get r.Query "visitor_name" = "" then
      (if w.Getenv "NAME" = "" then "six-shot" else w.Getenv "NAME")
    else Values.Get r.Query "visitor_name") = specChosenName r w := by
  unfold specChosenName World.Getenv
  by_cases hq : Values.Get r.Query "visitor_name" = ""
  · simp only [hq, if_true, ne_eq, not_true_eq_false, if_false]
    cases w.environ "NAME" with
    | none => simp
    | some n => by_cases hn : n = "" <;> simp [hn]
  · simp [hq]

theorem trimLeftByte_replicate_append (a : Nat) (t : List Char) (c : Char) :
    trimLeftByte (List.replicate a c ++ t) c = trimLeftByte t c := by
  induction a with
  | zero => simp
  | succ a ih => simp [List.replicate_succ, trimLeftByte, ih]

theorem trimLeftByte_of_head (t : List Char) (c : Char) (h : t.head? ≠ some c) :
    trimLeftByte t c = t := by
  cases t with
  | nil => rfl
  | cons x xs =>
    have hx : x ≠ c := fun e => h (by simp [e])
    simp [trimLeftByte, hx]

theorem trimRightByte_append_replicate (b : Nat) (t : List Char) (c : Char) :
    trimRightByte (t ++ List.replicate b c) c = trimRightByte t c := by
  simp [trimRightByte, trimLeftByte_replicate_append]

theorem trimRightByte_of_last (t : List Char) (c : Char) (h : t.getLast? ≠ some c) :
    trimRightByte t c = t := by
  unfold trimRightByte
  rw [trimLeftByte_of_head _ _ (by simpa [List.head?_reverse] using h), List.reverse_reverse]

/-- The stripped name is determined by the chosen value: any text without a leading or
trailing quote that sits between two runs of quotes is what `Trim` returns. -/
theorem Trim_dquote_unique (s : String) (n : List Char) (a b : Nat)
    (hs : s.data = List.replicate a dquote ++ n ++ List.replicate b dquote)
    (hh : n.head? ≠ some dquote) (hl : n.getLast? ≠ some dquote) :
    (Trim s "\"").data = n := by
  rw [Trim_dquote, hs]
  simp only
  rw [trimRightByte_append_replicate]
  cases n with
  | nil =>
    rw [List.append_nil]
    have h1 : trimRightByte (List.replicate a dquote) dquote = [] := by
      have := trimRightByte_append_replicate a [] dquote
      simpa [trimRightByte, trimLeftByte] using this
    rw [h1]
    rfl
  | cons x xs =>
    have hlast : (List.replicate a dquote ++ x :: xs).getLast? ≠ some dquote := by
      rw [List.getLast?_append_of_ne_nil _ (by simp)]
      exact hl
    rw [trimRightByte_of_last _ _ hlast, trimLeftByte_replicate_append,
      trimLeftByte_of_head _ _ hh]

theorem repr_digit (k : Nat) (h : k < 10) : Nat.repr k = String.singleton (Nat.digitChar k) := by
  interval_cases k <;> rfl

theorem tenths_ofNat (neg : Bool) (m e : Nat) :
    (Float64.mk neg m (Int.ofNat e)).tenths = m * 2 ^ e * 10 := rfl

theorem tenths_negSucc (neg : Bool) (m e : Nat) :
    (Float64.mk neg m (Int.negSucc e)).tenths =
      if 2 ^ (e + 1) < 2 * (m * 10 % 2 ^ (e + 1)) ∨
          (2 * (m * 10 % 2 ^ (e + 1)) = 2 ^ (e + 1) ∧ m * 10 / 2 ^ (e + 1) % 2 = 1)
      then m * 10 / 2 ^ (e + 1) + 1 else m * 10 / 2 ^ (e + 1) := rfl

/-- Rounding a quotient `n / d` to the nearest integer, ties to even. -/
theorem round_half_even (n d : Nat) (hd : 0 < d) :
    let T := if d < 2 * (n % d) ∨ (2 * (n % d) = d ∧ n / d % 2 = 1) then n / d + 1 else n / d
    |(n : ℚ) / d - T| ≤ 1 / 2 ∧ (|(n : ℚ) / d - T| = 1 / 2 → Even T) := by
  intro T
  have hdq : (0 : ℚ) < d := by exact_mod_cast hd
  have hn : (n : ℚ) = d * (n / d : Nat) + (n % d : Nat) := by
    exact_mod_cast (Nat.div_add_mod n d).symm
  have hx : (n : ℚ) / d = (n / d : Nat) + ((n % d : Nat) : ℚ) / d := by
    rw [hn]
    field_simp
    ring
  have hr : ((n % d : Nat) : ℚ) < d := by exact_mod_cast Nat.mod_lt n hd
  have hr0 : (0 : ℚ) ≤ ((n % d : Nat) : ℚ) := by positivity
  by_cases hc : d < 2 * (n % d) ∨ (2 * (n % d) = d ∧ n / d % 2 = 1)
  · have hT : T = n / d + 1 := if_pos hc
    have h2 : (d : ℚ) ≤ 2 * ((n % d : Nat) : ℚ) := by
      rcases hc with hc | hc
      · exact_mod_cast hc.le
      · exact_mod_cast hc.1.ge
    have hdiff : (n : ℚ) / d - T = -((d - ((n % d : Nat) : ℚ)) / d) := by
      rw [hx, hT]; push_cast; field_simp; ring
    have hnn : 0 ≤ (d - ((n % d : Nat) : ℚ)) / d := div_nonneg (by linarith) hdq.le
    rw [hdiff, abs_neg, abs_of_nonneg hnn]
    constructor
    · rw [div_le_iff₀ hdq]; linarith
    · intro heq
      rw [div_eq_iff hdq.ne'] at heq
      have h3 : 2 * ((n % d : Nat) : ℚ) = d := by linarith
      have h4 : 2 * (n % d) = d := by exact_mod_cast h3
      rcases hc with hc | hc
      · omega
      · rw [hT]
        exact Nat.even_add_one.2 (Nat.not_even_iff.2 hc.2)
  · have hT : T = n / d := if_neg hc
    have h2 : 2 * ((n % d : Nat) : ℚ) ≤ d := by
      have : 2 * (n % d) ≤ d := by
        by_contra hlt
        exact hc (Or.inl (by omega))
      exact_mod_cast this
    have hdiff : (n : ℚ) / d - T = ((n % d : Nat) : ℚ) / d := by
      rw [hx, hT]; ring
    have hnn : 0 ≤ ((n % d : Nat) : ℚ) / d := div_nonneg hr0 hdq.le
    rw [hdiff, abs_of_nonneg hnn]
    constructor
    · rw [div_le_iff₀ hdq]; linarith
    · intro heq
      rw [div_eq_iff hdq.ne'] at heq
      have h3 : 2 * ((n % d : Nat) : ℚ) = d := by linarith
      have h4 : 2 * (n % d) = d := by exact_mod_cast h3
      rw [hT]
      rcases Nat.even_or_odd (n / d) with he | ho
      · exact he
      · exact absurd (Or.inr ⟨h4, Nat.odd_iff.1 ho⟩) hc

/-- The tenths printed by `%.1f` are ten times the magnitude rounded to the nearest
integer, a tie going to the even integer. -/
theorem tenths_spec (t : Float64) :
    |t.abs * 10 - (t.tenths : ℚ)| ≤ 1 / 2 ∧
    (|t.abs * 10 - (t.tenths : ℚ)| = 1 / 2 → Even t.tenths) := by
  obtain ⟨neg, m, e⟩ := t
  cases e with
  | ofNat e =>
    have h0 : (Float64.mk neg m (Int.ofNat e)).abs * 10 -
        (((Float64.mk neg m (Int.ofNat e)).tenths : Nat) : ℚ) = 0 := by
      rw [tenths_ofNat]
      simp only [Float64.abs, Int.ofNat_eq_coe, zpow_natCast]
      push_cast
      ring
    rw [h0]
    norm_num
  | negSucc e =>
    have hd : 0 < 2 ^ (e + 1) := Nat.pow_pos (by norm_num)
    have hx : (Float64.mk neg m (Int.negSucc e)).abs * 10 =
        ((m * 10 : Nat) : ℚ) / ((2 ^ (e + 1) : Nat) : ℚ) := by
      simp only [Float64.abs, zpow_negSucc]
      push_cast
      field_simp
    rw [hx, tenths_negSucc]
    exact round_half_even (m * 10) (2 ^ (e + 1)) hd

theorem formatF1_shape (t : Float64) :
    formatF1 t = (if t.neg then "-" else "") ++ Nat.repr (t.tenths / 10) ++ "." ++
      String.singleton (Nat.digitChar (t.tenths % 10)) := by
  unfold formatF1
  rw [repr_digit _ (Nat.mod_lt _ (by norm_num))]

theorem mustMap_eq_ok {v : JSON} {m : GoMap} (h : v.mustMap = .ok m) : v = JSON.object m := by
  cases v <;> simp [JSON.mustMap] at h
  rw [h]

theorem assertFloat64_eq (v : JSON) :
    v.assertFloat64.1 = (match v with
      | JSON.number f => f
      | _ => Float64.zero) := by
  cases v <;> rfl

/-- C2: in every successful run the name in the greeting is the value chosen by the
order query parameter `visitor_name` (when non-empty), variable `NAME` (when set and
non-empty), literal `six-shot`, with its leading and trailing double quotes removed:
the chosen value is some quotes, then the name, then some quotes, and the name neither
starts nor ends with a quote. -/
theorem C2_visitor_name_resolution (r : Request) (w : World) (tr : List String)
    (info : IPInfo) (h : getIPInfo r w = (tr, .ok info)) :
    ∃ (name : String) (temp : Float64) (a b : Nat),
      info.Greeting = sprintfGreeting name temp info.Location ∧
      (specChosenName r w).data =
        List.replicate a dquote ++ name.data ++ List.replicate b dquote ∧
      name.data.head? ≠ some dquote ∧ name.data.getLast? ≠ some dquote := by
  obtain ⟨resp, wresp, data, wdata, main, _, _, _, _, _, _, _, hinfo⟩ := getIPInfo_ok_inv h
  subst hinfo
  rw [chosenName_eq]
  obtain ⟨a, b, h1, h2, h3⟩ := Trim_dquote_spec (specChosenName r w)
  exact ⟨_, _, a, b, rfl, h1, h2, h3⟩

/-- C2, instance: the query value `"Ada"` with its quotes gives the name `Ada`. -/
theorem C2_visitor_name_resolution_witness :
    getIPInfo adaRequest berlinWorld =
      ([geoURL, weatherURL "Berlin" "k"], .ok ⟨"203.0.113.7:51234", "Berlin",
        "Hello, Ada! The temperature is 18.3 degrees Celsius in Berlin"⟩) ∧
    (specChosenName adaRequest berlinWorld).data = dquote :: 'A' :: 'd' :: 'a' :: [dquote] ∧
    ∃ (name : String) (temp : Float64) (a b : Nat),
      "Hello, Ada! The temperature is 18.3 degrees Celsius in Berlin" =
        sprintfGreeting name temp "Berlin" ∧
      (specChosenName adaRequest berlinWorld).data =
        List.replicate a dquote ++ name.data ++ List.replicate b dquote ∧
      name.data.head? ≠ some dquote ∧ name.data.getLast? ≠ some dquote :=
  ⟨by decide, by decide,
    C2_visitor_name_resolution adaRequest berlinWorld [geoURL, weatherURL "Berlin" "k"]
      ⟨"203.0.113.7:51234", "Berlin",
        "Hello, Ada! The temperature is 18.3 degrees Celsius in Berlin"⟩ (by decide)⟩

/-- C3: in every successful run the greeting is `Hello, ` + name + `! The temperature is `
+ d + ` degrees Celsius in ` + city, where name is the resolved visitor name, city is the
location, and d renders the temperature with one digit after the point: an optional
minus sign, the decimal digits of `T / 10`, a point, the digit `T % 10`, for `T` the
integer nearest to ten times the magnitude (a tie going to the even integer). -/
theorem C3_greeting_format (r : Request) (w : World) (tr : List String) (info : IPInfo)
    (h : getIPInfo r w = (tr, .ok info)) :
    ∃ (n : String) (t : Float64) (wresp : Response) (wdata main : GoMap),
      n = Trim (specChosenName r w) "\"" ∧
      w.httpGet (weatherURL info.Location (w.Getenv "OPENWEATHER_API_KEY")) = .ok wresp ∧
      wresp.Decode = .ok wdata ∧ wdata.index "main" = JSON.object main ∧
      t = (match main.index "temp" with
        | JSON.number f => f
        | _ => Float64.zero) ∧
      info.Greeting = "Hello, " ++ n ++ "! The temperature is " ++
        ((if t.neg then "-" else "") ++ Nat.repr (t.tenths / 10) ++ "." ++
          String.singleton (Nat.digitChar (t.tenths % 10))) ++
        " degrees Celsius in " ++ info.Location ∧
      |t.abs * 10 - (t.tenths : ℚ)| ≤ 1 / 2 ∧
      (|t.abs * 10 - (t.tenths : ℚ)| = 1 / 2 → Even t.tenths) := by
  obtain ⟨resp, wresp, data, wdata, main, _, _, _, h3, h4, h5, _, hinfo⟩ := getIPInfo_ok_inv h
  subst hinfo
  refine ⟨_, (main.index "temp").assertFloat64.1, wresp, wdata, main, rfl, h3, h4,
    mustMap_eq_ok h5, assertFloat64_eq _, ?_, (tenths_spec _).1, (tenths_spec _).2⟩
  simp only [sprintfGreeting]
  rw [formatF1_shape, chosenName_eq]

/-- C3, instance: name `Ada`, city `Berlin`, temperature 18.3. -/
theorem C3_greeting_format_witness :
    getIPInfo adaRequest berlinWorld =
      ([geoURL, weatherURL "Berlin" "k"], .ok ⟨"203.0.113.7:51234", "Berlin",
        "Hello, Ada! The temperature is 18.3 degrees Celsius in Berlin"⟩) ∧
    ∃ (n : String) (t : Float64) (wresp : Response) (wdata main : GoMap),
      n = Trim (specChosenName adaRequest berlinWorld) "\"" ∧
      berlinWorld.httpGet (weatherURL "Berlin" (berlinWorld.Getenv "OPENWEATHER_API_KEY")) =
        .ok wresp ∧
      wresp.Decode = .ok wdata ∧ wdata.index "main" = JSON.object main ∧
      t = (match main.index "temp" with
        | JSON.number f => f
        | _ => Float64.zero) ∧
      "Hello, Ada! The temperature is 18.3 degrees Celsius in Berlin" =
        "Hello, " ++ n ++ "! The temperature is " ++
        ((if t.neg then "-" else "") ++ Nat.repr (t.tenths / 10) ++ "." ++
          String.singleton (Nat.digitChar (t.tenths % 10))) ++
        " degrees Celsius in " ++ "Berlin" ∧
      |t.abs * 10 - (t.tenths : ℚ)| ≤ 1 / 2 ∧
      (|t.abs * 10 - (t.tenths : ℚ)| = 1 / 2 → Even t.tenths) :=
  ⟨by decide,
    C3_greeting_format adaRequest berlinWorld [geoURL, weatherURL "Berlin" "k"]
      ⟨"203.0.113.7:51234", "Berlin",
        "Hello, Ada! The temperature is 18.3 degrees Celsius in Berlin"⟩ (by decide)⟩

/-! ## The weather address -/

theorem cut_of_not_mem (s : List Char) (c : Char) (h : c ∉ s) : cut s c = (s, [], false) := by
  induction s with
  | nil => rfl
  | cons x xs ih =>
    have hx : x ≠ c := fun e => h (by simp [e])
    have hxs : c ∉ xs := fun e => h (by simp [e])
    simp [cut, hx, ih hxs]

theorem cut_append_sep (a b : List Char) (c : Char) (h : c ∉ a) :
    cut (a ++ c :: b) c = (a, b, true) := by
  induction a with
  | nil => simp [cut]
  | cons x xs ih =>
    have hx : x ≠ c := fun e => h (by simp [e])
    have hxs : c ∉ xs := fun e => h (by simp [e])
    simp [cut, hx, ih hxs]

theorem QueryUnescape_plain (s : List Char) (h1 : '%' ∉ s) (h2 : '+' ∉ s) :
    QueryUnescape s = some s := by
  induction s with
  | nil => rfl
  | cons x xs ih =>
    have hx1 : x ≠ '%' := fun e => h1 (by simp [e])
    have hx2 : x ≠ '+' := fun e => h2 (by simp [e])
    have hxs1 : '%' ∉ xs := fun e => h1 (by simp [e])
    have hxs2 : '+' ∉ xs := fun e => h2 (by simp [e])
    rw [QueryUnescape]
    · simp [ih hxs1 hxs2]
    · intros; simp_all
    · intros; simp_all
    · intros; simp_all


theorem parsePair_plain (key value : List Char)
    (hk0 : ';' ∉ key) (hk1 : '=' ∉ key) (hk2 : '%' ∉ key) (hk3 : '+' ∉ key)
    (hv : plainText value) :
    parsePair (key ++ '=' :: value) = some (⟨key⟩, ⟨value⟩) := by
  obtain ⟨_, _, hv3, hv4, hv5, _⟩ := hv
  have hsemi : ';' ∉ key ++ '=' :: value := by
    simp only [List.mem_append, List.mem_cons, not_or]
    exact ⟨hk0, by decide, hv5⟩
  have hne : key ++ '=' :: value ≠ [] := by simp
  simp only [parsePair, if_neg hsemi, if_neg hne, cut_append_sep key value '=' hk1,
    QueryUnescape_plain key hk2 hk3, QueryUnescape_plain value hv3 hv4]

/-- The query of the weather address, read back by `parseQuery`, for plain texts. -/
theorem parseQueryLoop_weather (c k : List Char) (hc : plainText c) (hk : plainText k)
    (n : Nat) :
    parseQueryLoop (n + 4)
      (['q'] ++ '=' :: c ++ '&' :: (['a', 'p', 'p', 'i', 'd'] ++ '=' :: k ++
        '&' :: (['u', 'n', 'i', 't', 's'] ++ '=' :: ['m', 'e', 't', 'r', 'i', 'c']))) =
    [(⟨['q']⟩, ⟨c⟩), (⟨['a', 'p', 'p', 'i', 'd']⟩, ⟨k⟩),
      (⟨['u', 'n', 'i', 't', 's']⟩, ⟨['m', 'e', 't', 'r', 'i', 'c']⟩)] := by
  have hc1 : '&' ∉ ['q'] ++ '=' :: c := by
    simp only [List.mem_append, List.mem_cons, not_or]
    exact ⟨by decide, by decide, hc.1⟩
  have hk1 : '&' ∉ ['a', 'p', 'p', 'i', 'd'] ++ '=' :: k := by
    simp only [List.mem_append, List.mem_cons, not_or]
    exact ⟨by decide, by decide, hk.1⟩
  have hu1 : '&' ∉ ['u', 'n', 'i', 't', 's'] ++ '=' :: ['m', 'e', 't', 'r', 'i', 'c'] := by
    decide
  have p1 := parsePair_plain ['q'] c (by decide) (by decide) (by decide)
    (by decide) hc
  have p2 := parsePair_plain ['a', 'p', 'p', 'i', 'd'] k (by decide) (by decide)
    (by decide) (by decide) hk
  have p3 := parsePair_plain ['u', 'n', 'i', 't', 's'] ['m', 'e', 't', 'r', 'i', 'c']
    (by decide) (by decide) (by decide) (by decide)
    ⟨by decide, by decide, by decide, by decide, by decide, by decide⟩
  have e1 : parseQueryLoop (n + 4)
      (['q'] ++ '=' :: c ++ '&' :: (['a', 'p', 'p', 'i', 'd'] ++ '=' :: k ++
        '&' :: (['u', 'n', 'i', 't', 's'] ++ '=' :: ['m', 'e', 't', 'r', 'i', 'c']))) =
      (⟨['q']⟩, ⟨c⟩) :: parseQueryLoop (n + 3) (['a', 'p', 'p', 'i', 'd'] ++ '=' :: k ++
        '&' :: (['u', 'n', 'i', 't', 's'] ++ '=' :: ['m', 'e', 't', 'r', 'i', 'c'])) := by
    rw [parseQueryLoop, if_neg (by simp)]
    simp only [cut_append_sep _ _ '&' hc1, p1]
  have e2 : parseQueryLoop (n + 3) (['a', 'p', 'p', 'i', 'd'] ++ '=' :: k ++
        '&' :: (['u', 'n', 'i', 't', 's'] ++ '=' :: ['m', 'e', 't', 'r', 'i', 'c'])) =
      (⟨['a', 'p', 'p', 'i', 'd']⟩, ⟨k⟩) :: parseQueryLoop (n + 2)
        (['u', 'n', 'i', 't', 's'] ++ '=' :: ['m', 'e', 't', 'r', 'i', 'c']) := by
    rw [parseQueryLoop, if_neg (by simp)]
    simp only [cut_append_sep _ _ '&' hk1, p2]
  have e3 : parseQueryLoop (n + 2)
        (['u', 'n', 'i', 't', 's'] ++ '=' :: ['m', 'e', 't', 'r', 'i', 'c']) =
      [(⟨['u', 'n', 'i', 't', 's']⟩, ⟨['m', 'e', 't', 'r', 'i', 'c']⟩)] := by
    rw [parseQueryLoop, if_neg (by simp)]
    simp only [cut_of_not_mem _ '&' hu1, p3]
    rw [parseQueryLoop, if_pos rfl]
  rw [e1, e2, e3]

theorem weatherURL_data (c k : String) :
    (weatherURL c k).data = "https://api.openweathermap.org/data/2.5/weather".data ++
      '?' :: (['q'] ++ '=' :: c.data ++ '&' :: (['a', 'p', 'p', 'i', 'd'] ++ '=' :: k.data ++
        '&' :: (['u', 'n', 'i', 't', 's'] ++ '=' :: ['m', 'e', 't', 'r', 'i', 'c']))) := by
  simp [weatherURL, String.data_append]

theorem stringContainsCTLByte_append (a b : List Char) :
    stringContainsCTLByte (a ++ b) = (stringContainsCTLByte a || stringContainsCTLByte b) := by
  simp [stringContainsCTLByte]

theorem stringContainsCTLByte_weatherURL (c k : String)
    (hc : stringContainsCTLByte c.data = false) (hk : stringContainsCTLByte k.data = false) :
    stringContainsCTLByte (weatherURL c k).data = false := by
  have e : (weatherURL c k).data =
      "https://api.openweathermap.org/data/2.5/weather?q=".data ++ (c.data ++
        ("&appid=".data ++ (k.data ++ "&units=metric".data))) := by
    simp [weatherURL, String.data_append]
  have h0 : stringContainsCTLByte
      "https://api.openweathermap.org/data/2.5/weather?q=".data = false := by decide
  have h1 : stringContainsCTLByte "&appid=".data = false := by decide
  have h2 : stringContainsCTLByte "&units=metric".data = false := by decide
  rw [e, stringContainsCTLByte_append, stringContainsCTLByte_append,
    stringContainsCTLByte_append, stringContainsCTLByte_append, h0, hc, h1, hk, h2]
  rfl

theorem rawQueryOf_weatherURL (c k : String) (hc : '#' ∉ c.data) (hk : '#' ∉ k.data)
    (hcc : stringContainsCTLByte c.data = false)
    (hkc : stringContainsCTLByte k.data = false) :
    rawQueryOf (weatherURL c k) = some
      ⟨['q'] ++ '=' :: c.data ++ '&' :: (['a', 'p', 'p', 'i', 'd'] ++ '=' :: k.data ++
        '&' :: (['u', 'n', 'i', 't', 's'] ++ '=' :: ['m', 'e', 't', 'r', 'i', 'c']))⟩ := by
  have hfrag : '#' ∉ (weatherURL c k).data := by
    have h0 : '#' ∉ "https://api.openweathermap.org/data/2.5/weather".data := by decide
    rw [weatherURL_data]
    intro h
    rcases List.mem_append.1 h with h | h
    · exact h0 h
    · simp [hc, hk] at h
  have hctl := stringContainsCTLByte_weatherURL c k hcc hkc
  unfold rawQueryOf
  simp only [cut_of_not_mem _ _ hfrag, hctl, validEscapes, Bool.false_eq_true, if_false,
    if_true]
  rw [weatherURL_data, cut_append_sep _ _ '?' (by decide)]

theorem parseQuery_weatherURL (c k : String) (hc : plainText c.data) (hk : plainText k.data) :
    (rawQueryOf (weatherURL c k)).map parseQuery =
      some [("q", c), ("appid", k), ("units", "metric")] := by
  rw [rawQueryOf_weatherURL c k hc.2.1 hk.2.1 hc.2.2.2.2.2 hk.2.2.2.2.2]
  simp only [Option.map_some']
  unfold parseQuery
  obtain ⟨n, hn⟩ : ∃ n, (['q'] ++ '=' :: c.data ++ '&' :: (['a', 'p', 'p', 'i', 'd'] ++
      '=' :: k.data ++ '&' :: (['u', 'n', 'i', 't', 's'] ++
        '=' :: ['m', 'e', 't', 'r', 'i', 'c']))).length = n + 4 := by
    refine ⟨c.data.length + k.data.length + 18, ?_⟩
    simp only [List.length_append, List.length_cons, List.length_nil]
    omega
  simp only [hn]
  rw [parseQueryLoop_weather c.data k.data hc hk n]

theorem cut_rest_length (s : List Char) (c : Char) (h : s ≠ []) :
    (cut s c).2.1.length < s.length := by
  induction s with
  | nil => exact absurd rfl h
  | cons x xs ih =>
    by_cases hx : x = c
    · simp [cut, hx]
    · cases xs with
      | nil => simp [cut, hx]
      | cons y ys =>
        have := ih (by simp)
        simp only [cut, if_neg hx, List.length_cons] at this ⊢
        omega

/-- The loop of `parseQuery` never runs out of fuel: any fuel from the length of the
query on gives the same result. -/
theorem parseQueryLoop_fuel (f1 f2 : Nat) (q : List Char)
    (h1 : q.length ≤ f1) (h2 : q.length ≤ f2) :
    parseQueryLoop f1 q = parseQueryLoop f2 q := by
  induction f1 generalizing f2 q with
  | zero =>
    have hq : q = [] := List.length_eq_zero.1 (Nat.le_zero.1 h1)
    subst hq
    cases f2 <;> simp [parseQueryLoop]
  | succ f1 ih =>
    cases f2 with
    | zero =>
      have hq : q = [] := List.length_eq_zero.1 (Nat.le_zero.1 h2)
      subst hq
      simp [parseQueryLoop]
    | succ f2 =>
      by_cases hq : q = []
      · simp [parseQueryLoop, hq]
      · have hlt := cut_rest_length q '&' hq
        have e := ih f2 (cut q '&').2.1 (by omega) (by omega)
        simp only [parseQueryLoop, if_neg hq, e]

/-- Once the geolocation answer is decoded and a key is present, the weather call is
made, whatever happens afterwards. -/
theorem getIPInfo_calls_weather {r : Request} {w : World} {resp : Response} {data : GoMap}
    (h1 : w.httpGet geoURL = .ok resp) (h2 : resp.Decode = .ok data)
    (hk : w.Getenv "OPENWEATHER_API_KEY" ≠ "") :
    (getIPInfo r w).1 = [geoURL, weatherURL (data.index "city").assertString.1
      (w.Getenv "OPENWEATHER_API_KEY")] := by
  cases h3 : w.httpGet (weatherURL (data.index "city").assertString.1
      (w.Getenv "OPENWEATHER_API_KEY")) with
  | error err => rw [getIPInfo_weather_error h1 h2 hk h3]
  | ok wresp =>
    cases h4 : wresp.Decode with
    | error err => rw [getIPInfo_weather_decode_error h1 h2 hk h3 h4]
    | ok wdata =>
      cases h5 : (wdata.index "main").mustMap with
      | error p => rw [getIPInfo_main_panic h1 h2 hk h3 h4 h5]
      | ok main => rw [getIPInfo_success h1 h2 hk h3 h4 h5]

/-- C10 (amended): when the geolocation answer is decoded and the key `k` is non-empty,
the address handed to `http.Get` for the weather is
`https://api.openweathermap.org/data/2.5/weather?q=`, the city `c` as it is, `&appid=`,
the key as it is, and `&units=metric`, nothing being escaped; whenever `url.Parse`
accepts that address the weather call goes to it; and when neither `c` nor `k` contains
a control byte or one of `&`, `#`, `%`, `+`, `;`, the address is accepted and parsing
its query yields exactly `q = c`, `appid = k`, `units = metric`. -/
theorem C10_weather_url_verbatim (r : Request) (w : World) (resp : Response) (data : GoMap)
    (h1 : w.httpGet geoURL = .ok resp) (h2 : resp.Decode = .ok data)
    (hk : w.Getenv "OPENWEATHER_API_KEY" ≠ "") :
    weatherURL (data.index "city").assertString.1 (w.Getenv "OPENWEATHER_API_KEY") =
      "https://api.openweathermap.org/data/2.5/weather?q=" ++
        (data.index "city").assertString.1 ++ "&appid=" ++ w.Getenv "OPENWEATHER_API_KEY" ++
        "&units=metric" ∧
    ((rawQueryOf (weatherURL (data.index "city").assertString.1
        (w.Getenv "OPENWEATHER_API_KEY"))).isSome = true →
      (getIPInfo r w).1 = [geoURL, weatherURL (data.index "city").assertString.1
        (w.Getenv "OPENWEATHER_API_KEY")]) ∧
    (plainText (data.index "city").assertString.1.data →
      plainText (w.Getenv "OPENWEATHER_API_KEY").data →
      (rawQueryOf (weatherURL (data.index "city").assertString.1
          (w.Getenv "OPENWEATHER_API_KEY"))).map parseQuery =
        some [("q", (data.index "city").assertString.1),
          ("appid", w.Getenv "OPENWEATHER_API_KEY"), ("units", "metric")]) :=
  ⟨rfl, fun _ => getIPInfo_calls_weather h1 h2 hk,
    fun hc hkp => parseQuery_weatherURL _ _ hc hkp⟩

/-- C10, instance: city `Berlin` and key `k`. -/
theorem C10_weather_url_verbatim_witness :
    berlinWorld.httpGet geoURL = .ok berlinBody ∧
    berlinWorld.Getenv "OPENWEATHER_API_KEY" ≠ "" ∧
    plainText ("Berlin" : String).data ∧ plainText ("k" : String).data ∧
    (rawQueryOf
      "https://api.openweathermap.org/data/2.5/weather?q=Berlin&appid=k&units=metric").isSome
      = true ∧
    (getIPInfo adaRequest berlinWorld).1 = [geoURL,
      "https://api.openweathermap.org/data/2.5/weather?q=Berlin&appid=k&units=metric"] ∧
    (rawQueryOf
      "https://api.openweathermap.org/data/2.5/weather?q=Berlin&appid=k&units=metric").map
      parseQuery = some [("q", "Berlin"), ("appid", "k"), ("units", "metric")] :=
  ⟨rfl, by decide, by decide, by decide, by decide,
    (C10_weather_url_verbatim adaRequest berlinWorld berlinBody
      [("ip", JSON.string "198.51.100.4"), ("city", JSON.string "Berlin")] rfl rfl
      (by decide)).2.1 (by decide),
    (C10_weather_url_verbatim adaRequest berlinWorld berlinBody
      [("ip", JSON.string "198.51.100.4"), ("city", JSON.string "Berlin")] rfl rfl
      (by decide)).2.2 (by decide) (by decide)⟩

/-- C10 as written fails: for the city `Brighton & Hove` the requested address is
`...?q=Brighton & Hove&appid=k&units=metric`, which `url.Parse` accepts and whose query
parses to `q = "Brighton "` and an extra key `" Hove"`; and two different (city, key)
pairs give one and the same address, so no parser can return both. -/
theorem C10_query_not_escaped :
    (getIPInfo adaRequest hoveWorld).1 = [geoURL,
      "https://api.openweathermap.org/data/2.5/weather?q=Brighton & Hove&appid=k&units=metric"] ∧
    (rawQueryOf (weatherURL "Brighton & Hove" "k")).map parseQuery =
      some [("q", "Brighton "), (" Hove", ""), ("appid", "k"), ("units", "metric")] ∧
    (rawQueryOf (weatherURL "Brighton & Hove" "k")).map
      (fun q => Values.Get (parseQuery q) "q") = some "Brighton " ∧
    (rawQueryOf (weatherURL "Brighton & Hove" "k")).map parseQuery ≠
      some [("q", "Brighton & Hove"), ("appid", "k"), ("units", "metric")] ∧
    weatherURL "Hove&appid=x" "k" = weatherURL "Hove" "x&appid=k" := by
  refine ⟨by decide, by decide, by decide, by decide, by decide⟩

end HttpServer
